import Mathlib

/-!
Shallow embedding of the checkout / order lifecycle engine of the
`ecommerce` repository (`app/routers/cart.py`, `app/routers/orders.py`,
`app/models.py`).

Modelling choices:
* SQLAlchemy tables become lists of records inside a `DBState`; a
  `.filter(...).first()` query is `List.find?`, mutating the row returned
  by such a query is `updateFirst` (update of the first matching element),
  `db.delete(row)` of that row is `removeFirst`, a bulk
  `.filter(...).delete()` is `List.filter` with the negated predicate.
* Python `float` money values are modelled as exact rationals `ℚ` (the
  spec's "decimal"); Python's `round(x, 2)` (banker's rounding) is
  `round2`, built on round-half-to-even.
* Each HTTP handler becomes a function `DBState → ... → DBState × Except HErr α`.
  The state returned on an error is the working state at the moment the
  `HTTPException` is raised (no transactional rollback is assumed), so a
  theorem asserting "state unchanged on failure" is a structural property
  of the code, not an artifact of the model.
* `datetime.now().isoformat()`, generated UUIDs and the random order
  number are external inputs, passed as explicit parameters.
-/

namespace Ecommerce

/-- Embedding of `app/models.py` `Product` (columns relevant to the core). -/
structure Product where
  id : String
  name : String
  sku : String
  price : ℚ
  quantity : ℤ
  is_active : Bool
  updated_at : String
deriving DecidableEq, Repr

/-- Embedding of `app/models.py` `CartItem`. -/
structure CartItem where
  id : String
  user_id : String
  product_id : String
  quantity : ℤ
  added_at : String
  updated_at : String
deriving DecidableEq, Repr

/-- Embedding of `app/models.py` `OrderDB` (the auto-generated primary key `id` is a
parameter of checkout; relationship attributes are modelled by the
`order_items` table of `DBState`). -/
structure OrderDB where
  id : String
  order_number : String
  user_id : String
  status : String
  subtotal : ℚ
  shipping_cost : ℚ
  tax_amount : ℚ
  discount_amount : ℚ
  total : ℚ
  shipping_address : String
  shipping_method : String
  customer_name : String
  customer_email : String
  customer_phone : Option String
  payment_method : String
  notes : Option String
  created_at : String
  updated_at : String
  paid_at : Option String
  shipped_at : Option String
  delivered_at : Option String
deriving DecidableEq, Repr

/-- Embedding of `app/models.py` `OrderItemDB` (snapshot line item; its own surrogate
`id` column is never consulted by the core logic and is omitted). -/
structure OrderItemDB where
  order_id : String
  product_id : String
  product_name : String
  product_sku : String
  product_price : ℚ
  quantity : ℤ
deriving DecidableEq, Repr

/-- The backing store: one list per table. -/
structure DBState where
  products : List Product
  cart_items : List CartItem
  orders : List OrderDB
  order_items : List OrderItemDB
deriving DecidableEq, Repr

/-- The `HTTPException`s raised by the cart and orders routers, one
constructor per raise site (the string/number arguments are the data
interpolated into the `detail` message). -/
inductive HErr where
  | cartEmpty : HErr
  | productNotFound : String → HErr
  | productNotFoundCart : HErr
  | stockCheckout : String → ℤ → ℤ → HErr
  | stockCart : ℤ → HErr
  | stockCartMerge : ℤ → ℤ → HErr
  | cartItemNotFound : HErr
  | orderNotFound : HErr
  | forbidden : HErr
  | invalidStatus : HErr
  | invalidTransition : HErr
deriving DecidableEq, Repr

/-- HTTP status code of each raise site. -/
def HErr.statusCode : HErr → Nat
  | .cartEmpty => 400
  | .productNotFound _ => 404
  | .productNotFoundCart => 404
  | .stockCheckout _ _ _ => 400
  | .stockCart _ => 400
  | .stockCartMerge _ _ => 400
  | .cartItemNotFound => 404
  | .orderNotFound => 404
  | .forbidden => 403
  | .invalidStatus => 400
  | .invalidTransition => 400

/-- The error is one of the insufficient-stock raise sites. -/
def HErr.isInsufficientStock : HErr → Bool
  | .stockCheckout _ _ _ => true
  | .stockCart _ => true
  | .stockCartMerge _ _ => true
  | _ => false

/-- Update the first element satisfying `p` (SQLAlchemy: mutate the row
returned by `.filter(...).first()`). -/
def updateFirst (p : α → Bool) (f : α → α) : List α → List α
  | [] => []
  | x :: rest => if p x then f x :: rest else x :: updateFirst p f rest

/-- Remove the first element satisfying `p` (SQLAlchemy: `db.delete(row)`
for the row returned by `.filter(...).first()`). -/
def removeFirst (p : α → Bool) : List α → List α
  | [] => []
  | x :: rest => if p x then rest else x :: removeFirst p rest

/-- Query `db.query(Product).filter(Product.id == pid, Product.is_active == True).first()`. -/
def findProductActive (ps : List Product) (pid : String) : Option Product :=
  ps.find? (fun p => p.id == pid && p.is_active)

/-- Query `db.query(Product).filter(Product.id == pid).first()` (no `is_active` filter). -/
def findProduct (ps : List Product) (pid : String) : Option Product :=
  ps.find? (fun p => p.id == pid)

/-- Python truthiness of an optional string (`None` and `""` are falsy). -/
def truthy : Option String → Bool
  | none => false
  | some s => !(s == "")

/-- Round-half-to-even to an integer, as Python's `round(_, 0)` does on
exact decimal values. -/
def roundHalfEven (q : ℚ) : ℤ :=
  let f := ⌊q⌋
  let r := q - (f : ℚ)
  if r < 1/2 then f
  else if 1/2 < r then f + 1
  else if f % 2 = 0 then f else f + 1

/-- Python `round(q, 2)` on exact decimal values. -/
def round2 (q : ℚ) : ℚ := ((roundHalfEven (q * 100) : ℚ)) / 100

/-- Embedding of `orders.py` `calculate_shipping_cost`. -/
def calculate_shipping_cost (shipping_method : String) (subtotal : ℚ) : ℚ :=
  if shipping_method == "express" then 15
  else if shipping_method == "standard" then
    (if subtotal < 100 then 5 else 0)
  else 0

/-- Embedding of `orders.py` `calculate_tax`: `round(subtotal * 0.1, 2)`. -/
def calculate_tax (subtotal : ℚ) : ℚ := round2 (subtotal * (1/10))

/-- The per-line snapshot dict built by the checkout validation loop. -/
structure ItemData where
  product_id : String
  product_name : String
  product_sku : String
  product_price : ℚ
  quantity : ℤ
deriving DecidableEq, Repr

/-- The validation loop of `create_order_from_cart` (steps 2–3): re-fetch
each live product, raise on a vanished/inactive product or insufficient
stock, and accumulate the snapshot data and the subtotal.  It performs no
writes. -/
def validateCartItems (products : List Product) :
    List CartItem → Except HErr (List ItemData × ℚ)
  | [] => .ok ([], 0)
  | ci :: rest =>
    match findProductActive products ci.product_id with
    | none => .error (.productNotFound ci.product_id)
    | some product =>
      if product.quantity < ci.quantity then
        .error (.stockCheckout product.name product.quantity ci.quantity)
      else
        match validateCartItems products rest with
        | .error e => .error e
        | .ok (items, sub) =>
          .ok ({ product_id := product.id, product_name := product.name,
                 product_sku := product.sku, product_price := product.price,
                 quantity := ci.quantity } :: items,
               product.price * (ci.quantity : ℚ) + sub)

/-- Embedding of `orders.py` `create_order_from_cart` (`POST /orders/checkout`).
`order_id`, `order_number` and `now` stand for the generated UUID, the
random order number and `datetime.now().isoformat()`. -/
def create_order_from_cart (st : DBState) (uid : String)
    (shipping_address shipping_method customer_name customer_email payment_method : String)
    (customer_phone notes : Option String)
    (order_id order_number now : String) : DBState × Except HErr OrderDB :=
  let cart_items := st.cart_items.filter (fun ci => ci.user_id == uid)
  if cart_items.isEmpty then (st, .error .cartEmpty)
  else
    match validateCartItems st.products cart_items with
    | .error e => (st, .error e)
    | .ok (items, subtotal) =>
      let shipping_cost := calculate_shipping_cost shipping_method subtotal
      let tax_amount := calculate_tax subtotal
      let total := subtotal + shipping_cost + tax_amount
      let new_order : OrderDB :=
        { id := order_id, order_number := order_number, user_id := uid,
          status := "pending", subtotal := subtotal, shipping_cost := shipping_cost,
          tax_amount := tax_amount, discount_amount := 0, total := total,
          shipping_address := shipping_address, shipping_method := shipping_method,
          customer_name := customer_name, customer_email := customer_email,
          customer_phone := customer_phone, payment_method := payment_method,
          notes := notes, created_at := now, updated_at := now,
          paid_at := none, shipped_at := none, delivered_at := none }
      let new_items := items.map (fun d =>
        ({ order_id := order_id, product_id := d.product_id,
           product_name := d.product_name, product_sku := d.product_sku,
           product_price := d.product_price, quantity := d.quantity } : OrderItemDB))
      let products2 := items.foldl (fun ps d =>
        updateFirst (fun p => p.id == d.product_id)
          (fun p => { p with quantity := p.quantity - d.quantity, updated_at := now }) ps)
        st.products
      ({ products := products2,
         cart_items := st.cart_items.filter (fun ci => !(ci.user_id == uid)),
         orders := st.orders ++ [new_order],
         order_items := st.order_items ++ new_items },
       .ok new_order)

/-- The seven legal status values of `update_order_status`. -/
def validStatuses : List String :=
  ["pending", "confirmed", "processing", "shipped", "delivered", "cancelled", "refunded"]

/-- Embedding of `orders.py` `update_order_status` (`PATCH /orders/{id}/status`,
admin-only; authorization is resolved upstream).  `status?` is the
optional `status` field of the `OrderUpdate` body. -/
def update_order_status (st : DBState) (order_id : String)
    (status? : Option String) (now : String) : DBState × Except HErr OrderDB :=
  match st.orders.find? (fun o => o.id == order_id) with
  | none => (st, .error .orderNotFound)
  | some order =>
    if truthy status? then
      let s := status?.getD ""
      if !(validStatuses.contains s) then (st, .error .invalidStatus)
      else
        let order1 := { order with status := s, updated_at := now }
        let order2 :=
          if s == "shipped" && !(truthy order.shipped_at) then
            { order1 with shipped_at := some now }
          else if s == "delivered" && !(truthy order.delivered_at) then
            { order1 with delivered_at := some now }
          else order1
        ({ st with
            orders :=
              updateFirst (fun o => o.id == order_id) (fun _ => order2) st.orders },
         .ok order2)
    else
      (st, .ok order)

/-- Embedding of `orders.py` `cancel_order` (`POST /orders/{id}/cancel`). -/
def cancel_order (st : DBState) (order_id uid now : String) :
    DBState × Except HErr OrderDB :=
  match st.orders.find? (fun o => o.id == order_id) with
  | none => (st, .error .orderNotFound)
  | some order =>
    if !(order.user_id == uid) then (st, .error .forbidden)
    else if !(order.status == "pending" || order.status == "confirmed") then
      (st, .error .invalidTransition)
    else
      let items := st.order_items.filter (fun it => it.order_id == order_id)
      let products2 := items.foldl (fun ps it =>
        updateFirst (fun p => p.id == it.product_id)
          (fun p => { p with quantity := p.quantity + it.quantity, updated_at := now }) ps)
        st.products
      let order2 := { order with status := "cancelled", updated_at := now }
      ({ st with
          products := products2,
          orders := updateFirst (fun o => o.id == order_id) (fun _ => order2) st.orders },
       .ok order2)

/-- Embedding of `cart.py` `add_to_cart` (`POST /cart/`).  `newId` is the UUID a newly
created row would receive. -/
def add_to_cart (st : DBState) (uid pid : String) (qty : ℤ) (newId now : String) :
    DBState × Except HErr CartItem :=
  match findProductActive st.products pid with
  | none => (st, .error .productNotFoundCart)
  | some product =>
    if qty > product.quantity then (st, .error (.stockCart product.quantity))
    else
      match st.cart_items.find? (fun c => c.user_id == uid && c.product_id == pid) with
      | some existing =>
        let new_quantity := existing.quantity + qty
        if new_quantity > product.quantity then
          (st, .error (.stockCartMerge product.quantity existing.quantity))
        else
          ({ st with
              cart_items :=
                updateFirst (fun c => c.user_id == uid && c.product_id == pid)
                  (fun c => { c with quantity := new_quantity, updated_at := now })
                  st.cart_items },
           .ok { existing with quantity := new_quantity, updated_at := now })
      | none =>
        let new_item : CartItem :=
          { id := newId, user_id := uid, product_id := pid, quantity := qty,
            added_at := now, updated_at := now }
        ({ st with cart_items := st.cart_items ++ [new_item] }, .ok new_item)

/-- Outcome of `update_cart_item`: `removed` is the `HTTPException` with
status code 200 ("Item removed from cart") raised after the delete is
committed — a success signal, not an error. -/
inductive CartUpdateResult where
  | removed : CartUpdateResult
  | updated : CartItem → CartUpdateResult
deriving DecidableEq, Repr

/-- Embedding of `cart.py` `update_cart_item` (`PUT /cart/{item_id}`). -/
def update_cart_item (st : DBState) (uid item_id : String) (qty : ℤ) (now : String) :
    DBState × Except HErr CartUpdateResult :=
  match st.cart_items.find? (fun c => c.id == item_id && c.user_id == uid) with
  | none => (st, .error .cartItemNotFound)
  | some cart_item =>
    match findProductActive st.products cart_item.product_id with
    | none => (st, .error .productNotFoundCart)
    | some product =>
      if qty > product.quantity then (st, .error (.stockCart product.quantity))
      else if qty ≤ 0 then
        ({ st with
            cart_items :=
              removeFirst (fun c => c.id == item_id && c.user_id == uid) st.cart_items },
         .ok .removed)
      else
        ({ st with
            cart_items :=
              updateFirst (fun c => c.id == item_id && c.user_id == uid)
                (fun c => { c with quantity := qty, updated_at := now }) st.cart_items },
         .ok (.updated { cart_item with quantity := qty, updated_at := now }))

/-- Embedding of `cart.py` `remove_from_cart` (`DELETE /cart/{item_id}`). -/
def remove_from_cart (st : DBState) (uid item_id : String) :
    DBState × Except HErr Unit :=
  match st.cart_items.find? (fun c => c.id == item_id && c.user_id == uid) with
  | none => (st, .error .cartItemNotFound)
  | some _ =>
    ({ st with
        cart_items :=
          removeFirst (fun c => c.id == item_id && c.user_id == uid) st.cart_items },
     .ok ())

/-- Embedding of `cart.py` `clear_cart` (`DELETE /cart/`): deletes every cart row of
the caller. -/
def clear_cart (st : DBState) (uid : String) : DBState × Except HErr Unit :=
  ({ st with cart_items := st.cart_items.filter (fun c => !(c.user_id == uid)) }, .ok ())

/-- A sequence of keyed in-place row updates, applied left to right; the
product-table folds of checkout (stock decrement) and of cancellation
(restock) are instances of this shape. -/
def applyUpdates (ups : List (String × (Product → Product))) (ps : List Product) :
    List Product :=
  ups.foldl (fun acc u => updateFirst (fun p => p.id == u.1) u.2 acc) ps

/-- The order-total identity claimed by the spec: the stored `total` equals
the 2-decimal rounding of `subtotal + shipping_cost + tax_amount - discount_amount`. -/
def totalRoundedIdentity (o : OrderDB) : Bool :=
  o.total == round2 (o.subtotal + o.shipping_cost + o.tax_amount - o.discount_amount)

/-- Concrete product used by the witness states. -/
def pW : Product :=
  { id := "p1", name := "Widget", sku := "W1", price := 10, quantity := 5,
    is_active := true, updated_at := "t0" }

/-- Concrete cart line of user `u1` for `pW`. -/
def cW : CartItem :=
  { id := "c1", user_id := "u1", product_id := "p1", quantity := 2,
    added_at := "t0", updated_at := "t0" }

/-- Witness state: one active product, one cart line. -/
def stW : DBState := { products := [pW], cart_items := [cW], orders := [], order_items := [] }

/-- Product whose price has three decimal places (`0.001`); prices are
unconstrained floats in `schemas.py`, so such a price is accepted by the
product endpoints. -/
def pT : Product :=
  { id := "p2", name := "Trinket", sku := "T1", price := 1/1000, quantity := 5,
    is_active := true, updated_at := "t0" }

/-- Cart line of user `u2` for the three-decimal-priced product. -/
def cT : CartItem :=
  { id := "c2", user_id := "u2", product_id := "p2", quantity := 1,
    added_at := "t0", updated_at := "t0" }

/-- Counterexample state for the order-total rounding claim. -/
def stT : DBState := { products := [pT], cart_items := [cT], orders := [], order_items := [] }

/-- Concrete pending order of user `u1`. -/
def oO : OrderDB :=
  { id := "o1", order_number := "ORD-20240101-AAAAAA", user_id := "u1",
    status := "pending", subtotal := 20, shipping_cost := 5, tax_amount := 2,
    discount_amount := 0, total := 27, shipping_address := "addr",
    shipping_method := "standard", customer_name := "Al", customer_email := "a@b.c",
    customer_phone := none, payment_method := "card", notes := none,
    created_at := "t0", updated_at := "t0", paid_at := none,
    shipped_at := none, delivered_at := none }

/-- Witness state holding only the pending order `oO`. -/
def stO : DBState :=
  { products := [], cart_items := [], orders := [oO], order_items := [] }

/-- Second product, inactive, still carried by an order line item. -/
def pB : Product :=
  { id := "pB", name := "Gadget", sku := "G1", price := 3, quantity := 7,
    is_active := false, updated_at := "t0" }

/-- Line item of order `o1` over the active product (`qty 2`). -/
def itA : OrderItemDB :=
  { order_id := "o1", product_id := "p1", product_name := "Widget",
    product_sku := "W1", product_price := 10, quantity := 2 }

/-- Line item of order `o1` over the inactive product (`qty 1`). -/
def itB : OrderItemDB :=
  { order_id := "o1", product_id := "pB", product_name := "Gadget",
    product_sku := "G1", product_price := 3, quantity := 1 }

/-- Witness state for cancellation: a pending order with two line items,
one of whose products has since been deactivated. -/
def stX : DBState :=
  { products := [pW, pB], cart_items := [], orders := [oO], order_items := [itA, itB] }

/-- Counterexample state for the cart-update claim: the caller's cart line
references a product that has been deactivated. -/
def stI : DBState :=
  { products := [{ pW with is_active := false }], cart_items := [cW],
    orders := [], order_items := [] }

/-- The order produced by a successful checkout on `stW` with user `u1`,
standard shipping, ids `o1`/`ORD-1` and timestamp `t1`. -/
def oW : OrderDB :=
  { id := "o1", order_number := "ORD-1", user_id := "u1", status := "pending",
    subtotal := 20, shipping_cost := 5, tax_amount := 2, discount_amount := 0,
    total := 27, shipping_address := "addr", shipping_method := "standard",
    customer_name := "Al", customer_email := "a@b.c", customer_phone := none,
    payment_method := "card", notes := none, created_at := "t1", updated_at := "t1",
    paid_at := none, shipped_at := none, delivered_at := none }

/-- Finding the first match is taking the head of the filtered list. -/
theorem find?_eq_head?_filter (p : α → Bool) (l : List α) :
    l.find? p = (l.filter p).head? := by
  induction l with
  | nil => rfl
  | cons x xs ih =>
    cases h : p x
    · rw [List.find?_cons, List.filter_cons, h, ih]
      rfl
    · rw [List.find?_cons, List.filter_cons, h]
      rfl

/-- Every element of `updateFirst p f l` is an original element or the
image under `f` of the first match. -/
theorem mem_updateFirst {p : α → Bool} {f : α → α} {l : List α} {x : α}
    (hx : x ∈ updateFirst p f l) : x ∈ l ∨ ∃ y, l.find? p = some y ∧ x = f y := by
  induction l with
  | nil => simp [updateFirst] at hx
  | cons z zs ih =>
    cases h : p z
    · rw [updateFirst, if_neg (by simp [h])] at hx
      rcases List.mem_cons.mp hx with h1 | h1
      · exact Or.inl (h1 ▸ List.mem_cons_self _ _)
      · rcases ih h1 with h2 | ⟨y, hy, hxy⟩
        · exact Or.inl (List.mem_cons_of_mem _ h2)
        · refine Or.inr ⟨y, ?_, hxy⟩
          rw [List.find?_cons, h]
          exact hy
    · rw [updateFirst, if_pos h] at hx
      rcases List.mem_cons.mp hx with h1 | h1
      · refine Or.inr ⟨z, ?_, h1⟩
        rw [List.find?_cons, h]
      · exact Or.inl (List.mem_cons_of_mem _ h1)

/-- If `f` preserves satisfaction of `p` on matches, updating the first
`p`-match rewrites the result of `find? p` through `f`. -/
theorem find?_updateFirst_self {p : α → Bool} {f : α → α}
    (hf : ∀ x, p x = true → p (f x) = true) (l : List α) :
    (updateFirst p f l).find? p = (l.find? p).map f := by
  induction l with
  | nil => rfl
  | cons z zs ih =>
    cases h : p z
    · rw [updateFirst, if_neg (by simp [h]), List.find?_cons, h, List.find?_cons, h]
      exact ih
    · rw [updateFirst, if_pos h, List.find?_cons, hf z h, List.find?_cons, h]
      rfl

/-- Updating the first `p`-match does not disturb a `find?` whose predicate
`r` is false both on `p`-matches and on their images. -/
theorem find?_updateFirst_ne {p r : α → Bool} {f : α → α}
    (h : ∀ x, p x = true → (r x = false ∧ r (f x) = false)) (l : List α) :
    (updateFirst p f l).find? r = l.find? r := by
  induction l with
  | nil => rfl
  | cons z zs ih =>
    cases hz : p z
    · rw [updateFirst, if_neg (by simp [hz]), List.find?_cons, List.find?_cons]
      cases hr : r z
      · exact ih
      · rfl
    · rcases h z hz with ⟨h1, h2⟩
      rw [updateFirst, if_pos hz, List.find?_cons, h2, List.find?_cons, h1]

/-- When exactly one element matches `p` and `f` preserves `p`, the filter
after `updateFirst` is that element's image. -/
theorem filter_updateFirst_singleton {p : α → Bool} {f : α → α} {l : List α} {e : α}
    (hl : l.filter p = [e]) (hf : ∀ x, p (f x) = p x) :
    (updateFirst p f l).filter p = [f e] := by
  induction l with
  | nil => simp at hl
  | cons z zs ih =>
    cases h : p z
    · rw [List.filter_cons_of_neg (by simp [h])] at hl
      rw [updateFirst, if_neg (by simp [h]), List.filter_cons_of_neg (by simp [h]), ih hl]
    · rw [List.filter_cons_of_pos h] at hl
      obtain ⟨rfl, htl⟩ : z = e ∧ zs.filter p = [] := by simpa using hl
      rw [updateFirst, if_pos h, List.filter_cons_of_pos (by rw [hf]; exact h), htl]

/-- When exactly one element matches `p`, removing the first match leaves
no match at all. -/
theorem filter_removeFirst_singleton {p : α → Bool} {l : List α} {e : α}
    (hl : l.filter p = [e]) : (removeFirst p l).filter p = [] := by
  induction l with
  | nil => simp at hl
  | cons z zs ih =>
    cases h : p z
    · rw [List.filter_cons_of_neg (by simp [h])] at hl
      rw [removeFirst, if_neg (by simp [h]), List.filter_cons_of_neg (by simp [h]), ih hl]
    · rw [List.filter_cons_of_pos h] at hl
      obtain ⟨rfl, htl⟩ : z = e ∧ zs.filter p = [] := by simpa using hl
      rw [removeFirst, if_pos h, htl]

/-- One keyed update does not disturb the lookup of a different key,
provided the update preserves ids. -/
theorem find?_updateFirst_key_ne {a b : String} (hab : a ≠ b) {f : Product → Product}
    (hf : ∀ x, (f x).id = x.id) (ps : List Product) :
    (updateFirst (fun p => p.id == b) f ps).find? (fun p => p.id == a) =
      ps.find? (fun p => p.id == a) := by
  refine find?_updateFirst_ne (fun x hx => ?_) ps
  have hxb : x.id = b := by simpa using hx
  constructor
  · simp [hxb, hab.symm]
  · simp [hf, hxb, hab.symm]

/-- A key untouched by a batch of keyed updates keeps its lookup result. -/
theorem applyUpdates_find?_not_mem {ups : List (String × (Product → Product))}
    (hkey : ∀ u ∈ ups, ∀ x : Product, (u.2 x).id = x.id) {pid : String}
    (hpid : pid ∉ ups.map Prod.fst) (ps : List Product) :
    (applyUpdates ups ps).find? (fun p => p.id == pid) =
      ps.find? (fun p => p.id == pid) := by
  induction ups generalizing ps with
  | nil => rfl
  | cons u rest ih =>
    simp only [List.map_cons, List.mem_cons, not_or] at hpid
    have hrest : ∀ v ∈ rest, ∀ x : Product, (v.2 x).id = x.id :=
      fun v hv => hkey v (List.mem_cons_of_mem _ hv)
    have step := ih hrest hpid.2 (updateFirst (fun p => p.id == u.1) u.2 ps)
    calc (applyUpdates (u :: rest) ps).find? (fun p => p.id == pid)
        = (applyUpdates rest (updateFirst (fun p => p.id == u.1) u.2 ps)).find?
            (fun p => p.id == pid) := rfl
      _ = (updateFirst (fun p => p.id == u.1) u.2 ps).find? (fun p => p.id == pid) := step
      _ = ps.find? (fun p => p.id == pid) :=
          find?_updateFirst_key_ne hpid.1 (hkey u (List.mem_cons_self _ _)) ps

/-- With pairwise-distinct keys, a batch of keyed updates rewrites the
lookup of each updated key through exactly its own update. -/
theorem applyUpdates_find?_mem {ups : List (String × (Product → Product))}
    (hnd : (ups.map Prod.fst).Nodup)
    (hkey : ∀ u ∈ ups, ∀ x : Product, (u.2 x).id = x.id)
    {u : String × (Product → Product)} (hu : u ∈ ups) (ps : List Product) :
    (applyUpdates ups ps).find? (fun p => p.id == u.1) =
      (ps.find? (fun p => p.id == u.1)).map u.2 := by
  induction ups generalizing ps with
  | nil => simp at hu
  | cons v rest ih =>
    simp only [List.map_cons, List.nodup_cons] at hnd
    have hrest : ∀ w ∈ rest, ∀ x : Product, (w.2 x).id = x.id :=
      fun w hw => hkey w (List.mem_cons_of_mem _ hw)
    rcases List.mem_cons.mp hu with rfl | hmem
    · have hnotmem : u.1 ∉ rest.map Prod.fst := by
        simpa using hnd.1
      calc (applyUpdates (u :: rest) ps).find? (fun p => p.id == u.1)
          = (applyUpdates rest (updateFirst (fun p => p.id == u.1) u.2 ps)).find?
              (fun p => p.id == u.1) := rfl
        _ = (updateFirst (fun p => p.id == u.1) u.2 ps).find? (fun p => p.id == u.1) :=
            applyUpdates_find?_not_mem hrest hnotmem _
        _ = (ps.find? (fun p => p.id == u.1)).map u.2 := by
            refine find?_updateFirst_self (fun x hx => ?_) ps
            have := hkey u (List.mem_cons_self _ _) x
            simp only [this]
            exact hx
    · have hne : u.1 ≠ v.1 := by
        intro hcontra
        exact hnd.1 (hcontra ▸ List.mem_map_of_mem Prod.fst hmem)
      calc (applyUpdates (v :: rest) ps).find? (fun p => p.id == u.1)
          = (applyUpdates rest (updateFirst (fun p => p.id == v.1) v.2 ps)).find?
              (fun p => p.id == u.1) := rfl
        _ = ((updateFirst (fun p => p.id == v.1) v.2 ps).find? (fun p => p.id == u.1)).map
              u.2 := ih hnd.2 hrest hmem _
        _ = (ps.find? (fun p => p.id == u.1)).map u.2 := by
            rw [find?_updateFirst_key_ne hne (hkey v (List.mem_cons_self _ _)) ps]

/-- Keyed updates whose functions cannot create a negative quantity keep
every stored quantity non-negative (used for the restock fold, whose
increments are by non-negative amounts). -/
theorem applyUpdates_nonneg_mono {ups : List (String × (Product → Product))}
    (hup : ∀ u ∈ ups, ∀ x : Product, 0 ≤ x.quantity → 0 ≤ (u.2 x).quantity)
    {ps : List Product} (h0 : ∀ p ∈ ps, 0 ≤ p.quantity) :
    ∀ p ∈ applyUpdates ups ps, 0 ≤ p.quantity := by
  induction ups generalizing ps with
  | nil => exact h0
  | cons u rest ih =>
    have hrest : ∀ v ∈ rest, ∀ x : Product, 0 ≤ x.quantity → 0 ≤ (v.2 x).quantity :=
      fun v hv => hup v (List.mem_cons_of_mem _ hv)
    refine ih hrest (fun p hp => ?_)
    rcases mem_updateFirst hp with hmem | ⟨y, hy, rfl⟩
    · exact h0 p hmem
    · exact hup u (List.mem_cons_self _ _) y (h0 y (List.mem_of_find?_eq_some hy))

/-- Keyed updates with pairwise-distinct keys keep quantities non-negative
when each update is safe for the row its key initially designates (used
for the checkout stock-decrement fold, whose safety comes from the
validation pass). -/
theorem applyUpdates_nonneg_safe {ups : List (String × (Product → Product))}
    (hnd : (ups.map Prod.fst).Nodup)
    (hkey : ∀ u ∈ ups, ∀ x : Product, (u.2 x).id = x.id)
    {ps : List Product} (h0 : ∀ p ∈ ps, 0 ≤ p.quantity)
    (hsafe : ∀ u ∈ ups, ∀ p : Product,
      ps.find? (fun x => x.id == u.1) = some p → 0 ≤ (u.2 p).quantity) :
    ∀ p ∈ applyUpdates ups ps, 0 ≤ p.quantity := by
  induction ups generalizing ps with
  | nil => exact h0
  | cons u rest ih =>
    simp only [List.map_cons, List.nodup_cons] at hnd
    have hrest : ∀ v ∈ rest, ∀ x : Product, (v.2 x).id = x.id :=
      fun v hv => hkey v (List.mem_cons_of_mem _ hv)
    have h0' : ∀ p ∈ updateFirst (fun x => x.id == u.1) u.2 ps, 0 ≤ p.quantity := by
      intro p hp
      rcases mem_updateFirst hp with hmem | ⟨y, hy, rfl⟩
      · exact h0 p hmem
      · exact hsafe u (List.mem_cons_self _ _) y hy
    refine ih hnd.2 hrest h0' (fun v hv p hp => ?_)
    refine hsafe v (List.mem_cons_of_mem _ hv) p ?_
    have hne : v.1 ≠ u.1 := by
      intro hcontra
      exact hnd.1 (hcontra ▸ List.mem_map_of_mem Prod.fst hv)
    rw [find?_updateFirst_key_ne hne (hkey u (List.mem_cons_self _ _)) ps] at hp
    exact hp

/-- With distinct product ids, a successful active-only lookup agrees with
the unfiltered lookup used by the mutation loops. -/
theorem find?_eq_of_findActive {ps : List Product} {pid : String} {p : Product}
    (hnd : (ps.map Product.id).Nodup) (h : findProductActive ps pid = some p) :
    ps.find? (fun x => x.id == pid) = some p := by
  induction ps with
  | nil => simp [findProductActive] at h
  | cons z zs ih =>
    simp only [List.map_cons, List.nodup_cons] at hnd
    cases hz : (z.id == pid && z.is_active)
    · rw [findProductActive, List.find?_cons, hz] at h
      have hp : p ∈ zs ∧ p.id = pid := by
        have hmem := List.mem_of_find?_eq_some h
        have hpred := List.find?_some h
        simp only [Bool.and_eq_true, beq_iff_eq] at hpred
        exact ⟨hmem, hpred.1⟩
      have hzid : ¬(z.id = pid) := by
        intro hcontra
        exact hnd.1 (by
          rw [hcontra, ← hp.2]
          exact List.mem_map_of_mem Product.id hp.1)
      rw [List.find?_cons, show (z.id == pid) = false by simpa using hzid]
      exact ih hnd.2 (by rw [findProductActive]; exact h)
    · rw [findProductActive, List.find?_cons, hz] at h
      have hzp : z = p := by simpa using h
      have hpred : (z.id == pid) = true := by
        simp only [Bool.and_eq_true] at hz
        exact hz.1
      rw [List.find?_cons, hpred, hzp]

/-- Inversion of the checkout validation pass: on success the snapshot
list mirrors the cart lines product-for-product, the accumulated subtotal
is the sum of snapshot price times quantity, and every snapshot points at
a live product with enough stock whose fields it copied. -/
theorem validateCartItems_ok {ps : List Product} :
    ∀ {lines : List CartItem} {items : List ItemData} {sub : ℚ},
    validateCartItems ps lines = .ok (items, sub) →
    items.map (fun d => d.product_id) = lines.map (fun c => c.product_id) ∧
    sub = (items.map (fun d => d.product_price * (d.quantity : ℚ))).sum ∧
    ∀ d ∈ items, ∃ p, findProductActive ps d.product_id = some p ∧ p.id = d.product_id ∧
      d.quantity ≤ p.quantity ∧ d.product_price = p.price := by
  intro lines
  induction lines with
  | nil =>
    intro items sub hok
    rw [validateCartItems] at hok
    simp only [Except.ok.injEq, Prod.mk.injEq] at hok
    obtain ⟨h1, h2⟩ := hok
    subst h1
    subst h2
    exact ⟨rfl, rfl, by simp⟩
  | cons ci rest ih =>
    intro items sub hok
    rw [validateCartItems] at hok
    split at hok
    · cases hok
    · next product hf =>
      split at hok
      · cases hok
      · next hlt =>
        split at hok
        · cases hok
        · next items2 sub2 hrec =>
          simp only [Except.ok.injEq, Prod.mk.injEq] at hok
          obtain ⟨h1, h2⟩ := hok
          subst h1
          subst h2
          obtain ⟨ihmap, ihsum, ihall⟩ := ih hrec
          have hpid : product.id = ci.product_id := by
            have hpred := List.find?_some hf
            simp only [Bool.and_eq_true, beq_iff_eq] at hpred
            exact hpred.1
          refine ⟨?_, ?_, ?_⟩
          · simp only [List.map_cons, ihmap, hpid]
          · simp only [List.map_cons, List.sum_cons, ihsum]
          · intro d hd
            rcases List.mem_cons.mp hd with rfl | hd2
            · exact ⟨product, by simpa [hpid] using hf, by simp [hpid],
                by simpa using le_of_not_lt hlt, by simp⟩
            · exact ihall d hd2

/-- Claim C5: shipping cost is a flat 15.0 for `express`; for `standard`
it is 5.0 below the 100 free-shipping threshold and 0.0 at or above it;
every other method ships free. -/
theorem calculate_shipping_cost_spec (s : ℚ) :
    calculate_shipping_cost "express" s = 15 ∧
    (s < 100 → calculate_shipping_cost "standard" s = 5) ∧
    (100 ≤ s → calculate_shipping_cost "standard" s = 0) ∧
    (∀ m : String, m ≠ "express" → m ≠ "standard" → calculate_shipping_cost m s = 0) := by
  refine ⟨rfl, fun h => ?_, fun h => ?_, fun m h1 h2 => ?_⟩
  · rw [calculate_shipping_cost,
      show (("standard" : String) == "express") = false from by decide,
      show (("standard" : String) == "standard") = true from by decide]
    simp [if_pos h]
  · rw [calculate_shipping_cost,
      show (("standard" : String) == "express") = false from by decide,
      show (("standard" : String) == "standard") = true from by decide]
    simp [if_neg (not_lt.mpr h)]
  · rw [calculate_shipping_cost,
      show (m == "express") = false from beq_eq_false_iff_ne.mpr h1,
      show (m == "standard") = false from beq_eq_false_iff_ne.mpr h2]
    simp

/-- Witness for C5 at the spec's own test points: `99.99`, `100`, and a
third method name. -/
theorem calculate_shipping_cost_spec_witness :
    calculate_shipping_cost "standard" (9999 / 100) = 5 ∧
    calculate_shipping_cost "standard" 100 = 0 ∧
    calculate_shipping_cost "express" 100 = 15 ∧
    calculate_shipping_cost "pickup" 100 = 0 :=
  ⟨(calculate_shipping_cost_spec (9999 / 100)).2.1 (by norm_num),
   (calculate_shipping_cost_spec 100).2.2.1 (by norm_num),
   (calculate_shipping_cost_spec 100).1,
   (calculate_shipping_cost_spec 100).2.2.2 "pickup" (by decide) (by decide)⟩

/-- Claim C1: every failing checkout (empty cart, vanished/inactive
product, or insufficient stock) leaves the entire state untouched — no
order or line item persisted, no stock decremented, the caller's cart
intact. -/
theorem checkout_failure_leaves_state_unchanged
    (st : DBState) (uid sa sm cn ce pm : String) (cp nt : Option String)
    (oid onum now : String) (e : HErr)
    (herr : (create_order_from_cart st uid sa sm cn ce pm cp nt oid onum now).2 =
      Except.error e) :
    (create_order_from_cart st uid sa sm cn ce pm cp nt oid onum now).1 = st := by
  by_cases hemp : (st.cart_items.filter (fun ci => ci.user_id == uid)).isEmpty
  · simp [create_order_from_cart, hemp]
  · cases hval : validateCartItems st.products
        (st.cart_items.filter (fun ci => ci.user_id == uid)) with
    | error e2 => simp [create_order_from_cart, hemp, hval]
    | ok pr =>
      obtain ⟨items, subtotal⟩ := pr
      simp [create_order_from_cart, hemp, hval] at herr

/-- Witness for C1: checkout by a user with an empty cart fails and
changes nothing. -/
theorem checkout_failure_leaves_state_unchanged_witness :
    (create_order_from_cart stW "u9" "addr" "standard" "Al" "a@b.c" "card" none none
      "o1" "ORD-1" "t1").1 = stW :=
  checkout_failure_leaves_state_unchanged stW "u9" "addr" "standard" "Al" "a@b.c"
    "card" none none "o1" "ORD-1" "t1" .cartEmpty (by rfl)

/-- Counterexample to claim C3: with a product priced 0.001 (prices are
unconstrained floats), the persisted total is 5.001 while the claimed
2-decimal-rounded identity would give 5.0 — the code rounds neither the
subtotal nor the total. -/
theorem order_total_rounded_identity_cex :
    Except.map totalRoundedIdentity
      (create_order_from_cart stT "u2" "addr" "standard" "N" "n@e.x" "card" none none
        "o9" "ORD-9" "t1").2 = Except.ok false := by
  norm_num +decide [create_order_from_cart, stT, cT, pT, validateCartItems, findProductActive,
    calculate_shipping_cost, calculate_tax, round2, roundHalfEven, totalRoundedIdentity,
    Except.map, beq_eq_false_iff_ne]

/-- Claim C3 as amended: for every order persisted by checkout,
`total = subtotal + shipping_cost + tax_amount - discount_amount` holds
exactly (no rounding is applied to `subtotal` or `total`; only
`tax_amount` is rounded, to 2 decimals), with `discount_amount = 0`. -/
theorem order_total_exact_identity
    (st : DBState) (uid sa sm cn ce pm : String) (cp nt : Option String)
    (oid onum now : String) (o : OrderDB)
    (hok : (create_order_from_cart st uid sa sm cn ce pm cp nt oid onum now).2 =
      Except.ok o) :
    o.total = o.subtotal + o.shipping_cost + o.tax_amount - o.discount_amount ∧
    o.discount_amount = 0 ∧
    o.tax_amount = round2 (o.subtotal * (1 / 10)) ∧
    o.shipping_cost = calculate_shipping_cost sm o.subtotal := by
  by_cases hemp : (st.cart_items.filter (fun ci => ci.user_id == uid)).isEmpty
  · simp [create_order_from_cart, hemp] at hok
  · cases hval : validateCartItems st.products
        (st.cart_items.filter (fun ci => ci.user_id == uid)) with
    | error e2 => simp [create_order_from_cart, hemp, hval] at hok
    | ok pr =>
      obtain ⟨items, subtotal⟩ := pr
      simp only [create_order_from_cart, hemp, Bool.false_eq_true, if_neg,
        ite_false, hval] at hok
      rw [Except.ok.injEq] at hok
      subst hok
      refine ⟨by ring, rfl, rfl, rfl⟩

/-- Witness for C3 (amended) on a concrete successful checkout. -/
theorem order_total_exact_identity_witness :
    oW.total = oW.subtotal + oW.shipping_cost + oW.tax_amount - oW.discount_amount ∧
    oW.discount_amount = 0 ∧
    oW.tax_amount = round2 (oW.subtotal * (1 / 10)) ∧
    oW.shipping_cost = calculate_shipping_cost "standard" oW.subtotal :=
  order_total_exact_identity stW "u1" "addr" "standard" "Al" "a@b.c" "card" none none
    "o1" "ORD-1" "t1" oW (by
      norm_num +decide [create_order_from_cart, stW, cW, pW, validateCartItems, findProductActive,
        calculate_shipping_cost, calculate_tax, round2, roundHalfEven, oW])

/-- Counterexample to claim C8: the caller owns cart line `c1` and submits
quantity 0, but because the referenced product is inactive the handler
raises 404 `Product not found` before reaching the removal branch — the
line is not deleted and the outcome is an error, not a removal signal. -/
theorem update_cart_item_nonpositive_cex :
    update_cart_item stI "u1" "c1" 0 "t9" = (stI, Except.error HErr.productNotFoundCart) := by
  rfl

/-- Claim C8 as amended: when the cart line belongs to the caller and its
product still exists and is active (and stock is non-negative), an update
with quantity ≤ 0 deletes the line and signals a removal (HTTP 200), not
an error; no line matching the caller and id remains. -/
theorem update_cart_item_nonpositive_removes
    (st : DBState) (uid item_id : String) (qty : ℤ) (now : String)
    (ci : CartItem) (product : Product)
    (hline : st.cart_items.filter (fun c => c.id == item_id && c.user_id == uid) = [ci])
    (hprod : findProductActive st.products ci.product_id = some product)
    (hq : 0 ≤ product.quantity) (hqty : qty ≤ 0) :
    update_cart_item st uid item_id qty now =
      ({ st with
          cart_items :=
            removeFirst (fun c => c.id == item_id && c.user_id == uid) st.cart_items },
       Except.ok CartUpdateResult.removed) ∧
    ((update_cart_item st uid item_id qty now).1.cart_items.filter
        (fun c => c.id == item_id && c.user_id == uid)) = [] := by
  have hfind : st.cart_items.find? (fun c => c.id == item_id && c.user_id == uid) =
      some ci := by
    rw [find?_eq_head?_filter, hline]
    rfl
  have h1 : update_cart_item st uid item_id qty now =
      ({ st with
          cart_items :=
            removeFirst (fun c => c.id == item_id && c.user_id == uid) st.cart_items },
       Except.ok CartUpdateResult.removed) := by
    simp only [update_cart_item, hfind, hprod]
    rw [if_neg (by omega : ¬ qty > product.quantity), if_pos hqty]
  refine ⟨h1, ?_⟩
  rw [h1]
  exact filter_removeFirst_singleton hline

/-- Witness for C8 (amended): user `u1` updates the line for the active
in-stock product to quantity 0; the line is removed. -/
theorem update_cart_item_nonpositive_removes_witness :
    update_cart_item stW "u1" "c1" 0 "t1" =
      ({ stW with
          cart_items :=
            removeFirst (fun c => c.id == "c1" && c.user_id == "u1") stW.cart_items },
       Except.ok CartUpdateResult.removed) ∧
    ((update_cart_item stW "u1" "c1" 0 "t1").1.cart_items.filter
        (fun c => c.id == "c1" && c.user_id == "u1")) = [] :=
  update_cart_item_nonpositive_removes stW "u1" "c1" 0 "t1" cW pW (by rfl) (by rfl)
    (by decide) (by decide)

/-- Counterexample to claim C7: the empty string is outside the
seven-value status set, yet `update_order_status` succeeds (the falsy
check skips validation entirely) and does not bump `updated_at` — the
state is returned untouched. -/
theorem update_status_empty_string_cex :
    update_order_status stO "o1" (some "") "t9" = (stO, Except.ok oO) ∧
    "" ∉ validStatuses := by
  exact ⟨by rfl, by decide⟩

/-- Claim C7 as amended: for an existing order, `update_order_status`
fails with `InvalidStatus` exactly when a non-empty status outside the
seven-value set is supplied; a `None` or empty status is accepted as a
no-op that modifies nothing (in particular `updated_at` is not bumped);
for a non-empty status in the set the update succeeds, writes the status,
bumps `updated_at`, writes `shipped_at`/`delivered_at` only on the first
transition to `shipped`/`delivered` (never overwriting a truthy
timestamp), and leaves every other order field and every other table
unchanged. -/
theorem update_order_status_amended (st : DBState) (oid now : String) (o : OrderDB)
    (hfind : st.orders.find? (fun x => x.id == oid) = some o) :
    update_order_status st oid none now = (st, Except.ok o) ∧
    update_order_status st oid (some "") now = (st, Except.ok o) ∧
    (∀ s : String, s ≠ "" → s ∉ validStatuses →
      update_order_status st oid (some s) now = (st, Except.error HErr.invalidStatus)) ∧
    (∀ s : String, s ≠ "" → s ∈ validStatuses →
      ∃ o2 : OrderDB,
        (update_order_status st oid (some s) now).2 = Except.ok o2 ∧
        o2.status = s ∧ o2.updated_at = now ∧
        o2.shipped_at =
          (if s = "shipped" ∧ truthy o.shipped_at = false then some now else o.shipped_at) ∧
        o2.delivered_at =
          (if s = "delivered" ∧ truthy o.delivered_at = false then some now
           else o.delivered_at) ∧
        o2.id = o.id ∧ o2.order_number = o.order_number ∧ o2.user_id = o.user_id ∧
        o2.subtotal = o.subtotal ∧ o2.shipping_cost = o.shipping_cost ∧
        o2.tax_amount = o.tax_amount ∧ o2.discount_amount = o.discount_amount ∧
        o2.total = o.total ∧ o2.paid_at = o.paid_at ∧
        (update_order_status st oid (some s) now).1.products = st.products ∧
        (update_order_status st oid (some s) now).1.cart_items = st.cart_items ∧
        (update_order_status st oid (some s) now).1.order_items = st.order_items ∧
        (update_order_status st oid (some s) now).1.orders =
          updateFirst (fun x => x.id == oid) (fun _ => o2) st.orders) := by
  refine ⟨?_, ?_, ?_, ?_⟩
  · simp [update_order_status, hfind, truthy]
  · simp [update_order_status, hfind, truthy]
  · intro s h1 h2
    have htr : truthy (some s) = true := by
      simp [truthy, beq_eq_false_iff_ne.mpr h1]
    have hcon : validStatuses.contains s = false := by simpa using h2
    simp [update_order_status, hfind, htr, hcon]
    exact h2
  · intro s h1 h2
    have htr : truthy (some s) = true := by
      simp [truthy, beq_eq_false_iff_ne.mpr h1]
    have hcon : validStatuses.contains s = true := by simpa using h2
    simp only [update_order_status, hfind, htr, hcon, Bool.not_true, Bool.false_eq_true,
      if_true, if_false, ite_true, ite_false, Option.getD_some]
    refine ⟨_, rfl, ?_⟩
    by_cases hs : s = "shipped"
    · subst hs
      by_cases ht : truthy o.shipped_at
      · simp [ht]
      · rw [Bool.not_eq_true] at ht
        simp [ht]
    · by_cases hd : s = "delivered"
      · subst hd
        by_cases ht : truthy o.delivered_at
        · simp [ht, beq_eq_false_iff_ne.mpr hs]
        · rw [Bool.not_eq_true] at ht
          simp [ht, beq_eq_false_iff_ne.mpr hs]
      · simp [beq_eq_false_iff_ne.mpr hs, beq_eq_false_iff_ne.mpr hd, hs, hd]

/-- Witness for C7 (amended) on the concrete pending order: a `None`
status is a no-op, and a non-empty status outside the enum fails with
`InvalidStatus`. -/
theorem update_order_status_amended_witness :
    update_order_status stO "o1" none "t9" = (stO, Except.ok oO) ∧
    update_order_status stO "o1" (some "paid") "t9" =
      (stO, Except.error HErr.invalidStatus) :=
  ⟨(update_order_status_amended stO "o1" "t9" oO (by rfl)).1,
   (update_order_status_amended stO "o1" "t9" oO (by rfl)).2.2.1 "paid" (by decide)
     (by decide)⟩

/-- Claim C6: `add_to_cart` fails 404 when the product is missing or
inactive; with a live product it fails insufficient-stock when the
(merged) quantity exceeds stock, merges into the single existing line for
(user, product) summing quantities, and otherwise creates exactly one new
line with the requested quantity. -/
theorem add_to_cart_spec (st : DBState) (uid pid : String) (qty : ℤ) (newId now : String) :
    (findProductActive st.products pid = none →
      add_to_cart st uid pid qty newId now = (st, Except.error HErr.productNotFoundCart)) ∧
    (∀ product : Product, findProductActive st.products pid = some product →
      ((st.cart_items.filter (fun c => c.user_id == uid && c.product_id == pid) = [] →
        ((product.quantity < qty →
          add_to_cart st uid pid qty newId now =
            (st, Except.error (HErr.stockCart product.quantity))) ∧
         (qty ≤ product.quantity →
          add_to_cart st uid pid qty newId now =
            ({ st with
                cart_items := st.cart_items ++
                  [{ id := newId, user_id := uid, product_id := pid, quantity := qty,
                     added_at := now, updated_at := now }] },
             Except.ok { id := newId, user_id := uid, product_id := pid, quantity := qty,
                         added_at := now, updated_at := now }) ∧
          (add_to_cart st uid pid qty newId now).1.cart_items.filter
              (fun c => c.user_id == uid && c.product_id == pid) =
            [{ id := newId, user_id := uid, product_id := pid, quantity := qty,
               added_at := now, updated_at := now }]))) ∧
       (∀ e : CartItem,
         st.cart_items.filter (fun c => c.user_id == uid && c.product_id == pid) = [e] →
         0 ≤ e.quantity →
         ((product.quantity < e.quantity + qty →
           ∃ er, (add_to_cart st uid pid qty newId now).2 = Except.error er ∧
             er.isInsufficientStock = true) ∧
          (e.quantity + qty ≤ product.quantity →
           add_to_cart st uid pid qty newId now =
             ({ st with
                 cart_items :=
                   updateFirst (fun c => c.user_id == uid && c.product_id == pid)
                     (fun c => { c with quantity := e.quantity + qty, updated_at := now })
                     st.cart_items },
              Except.ok { e with quantity := e.quantity + qty, updated_at := now }) ∧
           (add_to_cart st uid pid qty newId now).1.cart_items.filter
               (fun c => c.user_id == uid && c.product_id == pid) =
             [{ e with quantity := e.quantity + qty, updated_at := now }]))))) := by
  constructor
  · intro hnone
    simp [add_to_cart, hnone]
  · intro product hprod
    constructor
    · intro hempt
      have hfindnone : st.cart_items.find?
          (fun c => c.user_id == uid && c.product_id == pid) = none := by
        rw [find?_eq_head?_filter, hempt]
        rfl
      constructor
      · intro hlt
        simp only [add_to_cart, hprod]
        rw [if_pos hlt]
      · intro hle
        have h1 : add_to_cart st uid pid qty newId now =
            ({ st with
                cart_items := st.cart_items ++
                  [{ id := newId, user_id := uid, product_id := pid, quantity := qty,
                     added_at := now, updated_at := now }] },
             Except.ok { id := newId, user_id := uid, product_id := pid, quantity := qty,
                         added_at := now, updated_at := now }) := by
          simp only [add_to_cart, hprod, hfindnone]
          rw [if_neg (not_lt.mpr hle)]
        refine ⟨h1, ?_⟩
        rw [h1]
        simp [List.filter_append, hempt]
    · intro e he he0
      have hfe : st.cart_items.find?
          (fun c => c.user_id == uid && c.product_id == pid) = some e := by
        rw [find?_eq_head?_filter, he]
        rfl
      constructor
      · intro hover
        by_cases h : product.quantity < qty
        · refine ⟨HErr.stockCart product.quantity, ?_, rfl⟩
          simp only [add_to_cart, hprod]
          rw [if_pos h]
        · refine ⟨HErr.stockCartMerge product.quantity e.quantity, ?_, rfl⟩
          simp only [add_to_cart, hprod, hfe]
          rw [if_neg h, if_pos hover]
      · intro hfit
        have hq : qty ≤ product.quantity := by omega
        have h1 : add_to_cart st uid pid qty newId now =
            ({ st with
                cart_items :=
                  updateFirst (fun c => c.user_id == uid && c.product_id == pid)
                    (fun c => { c with quantity := e.quantity + qty, updated_at := now })
                    st.cart_items },
             Except.ok { e with quantity := e.quantity + qty, updated_at := now }) := by
          simp only [add_to_cart, hprod, hfe]
          rw [if_neg (not_lt.mpr hq), if_neg (not_lt.mpr hfit)]
        refine ⟨h1, ?_⟩
        rw [h1]
        exact filter_updateFirst_singleton he (fun x => rfl)

/-- Witness for C6 on the spec's merge scenario: user `u1` already has a
line of quantity 2 for product `p1` (stock 5) and adds 3 more — one line
of quantity 5 results. -/
theorem add_to_cart_spec_witness :
    add_to_cart stW "u1" "p1" 3 "c9" "t1" =
      ({ stW with
          cart_items :=
            updateFirst (fun c => c.user_id == "u1" && c.product_id == "p1")
              (fun c => { c with quantity := cW.quantity + 3, updated_at := "t1" })
              stW.cart_items },
       Except.ok { cW with quantity := cW.quantity + 3, updated_at := "t1" }) ∧
    (add_to_cart stW "u1" "p1" 3 "c9" "t1").1.cart_items.filter
        (fun c => c.user_id == "u1" && c.product_id == "p1") =
      [{ cW with quantity := cW.quantity + 3, updated_at := "t1" }] :=
  (((add_to_cart_spec stW "u1" "p1" 3 "c9" "t1").2 pW (by rfl)).2 cW (by rfl)
    (by decide)).2 (by decide)

/-- Claim C9 (implicit): for every order created by a successful checkout
(under a fresh order id), the stored subtotal equals the sum over the
persisted line items of that order of `product_price * quantity` — both
sides come from the same live product read. -/
theorem checkout_subtotal_matches_line_items
    (st : DBState) (uid sa sm cn ce pm : String) (cp nt : Option String)
    (oid onum now : String) (o : OrderDB)
    (hfresh : ∀ it ∈ st.order_items, ¬(it.order_id = oid))
    (hok : (create_order_from_cart st uid sa sm cn ce pm cp nt oid onum now).2 =
      Except.ok o) :
    o.subtotal =
      (((create_order_from_cart st uid sa sm cn ce pm cp nt oid onum now).1.order_items.filter
          (fun it => it.order_id == o.id)).map
        (fun it => it.product_price * (it.quantity : ℚ))).sum := by
  by_cases hemp : (st.cart_items.filter (fun ci => ci.user_id == uid)).isEmpty
  · simp [create_order_from_cart, hemp] at hok
  · cases hval : validateCartItems st.products
        (st.cart_items.filter (fun ci => ci.user_id == uid)) with
    | error e2 => simp [create_order_from_cart, hemp, hval] at hok
    | ok pr =>
      obtain ⟨items, subtotal⟩ := pr
      obtain ⟨hmap, hsum, hall⟩ := validateCartItems_ok hval
      simp only [create_order_from_cart, hemp, Bool.false_eq_true, if_neg, ite_false,
        hval] at hok ⊢
      rw [Except.ok.injEq] at hok
      subst hok
      rw [List.filter_append]
      have h1 : st.order_items.filter (fun it => it.order_id == oid) = [] := by
        rw [List.filter_eq_nil_iff]
        intro it hit
        simp [hfresh it hit]
      have h2 : (items.map (fun d =>
          ({ order_id := oid, product_id := d.product_id, product_name := d.product_name,
             product_sku := d.product_sku, product_price := d.product_price,
             quantity := d.quantity } : OrderItemDB))).filter
            (fun it => it.order_id == oid) =
          items.map (fun d =>
          ({ order_id := oid, product_id := d.product_id, product_name := d.product_name,
             product_sku := d.product_sku, product_price := d.product_price,
             quantity := d.quantity } : OrderItemDB)) := by
        rw [List.filter_eq_self]
        intro a ha
        rcases List.mem_map.mp ha with ⟨d, _, rfl⟩
        simp
      rw [h1, h2, List.nil_append, List.map_map]
      exact hsum

/-- Witness for C9 on the concrete checkout over `stW`. -/
theorem checkout_subtotal_matches_line_items_witness :
    oW.subtotal =
      (((create_order_from_cart stW "u1" "addr" "standard" "Al" "a@b.c" "card" none none
            "o1" "ORD-1" "t1").1.order_items.filter
          (fun it => it.order_id == oW.id)).map
        (fun it => it.product_price * (it.quantity : ℚ))).sum :=
  checkout_subtotal_matches_line_items stW "u1" "addr" "standard" "Al" "a@b.c" "card"
    none none "o1" "ORD-1" "t1" oW (by simp [stW])
    (by
      norm_num +decide [create_order_from_cart, stW, cW, pW, validateCartItems,
        findProductActive, calculate_shipping_cost, calculate_tax, round2, roundHalfEven,
        oW])

/-- Evaluation of a permitted cancellation: the restock fold is a batch of
keyed increments and the order row is rewritten to `cancelled`. -/
theorem cancel_order_success (st : DBState) (oid uid now : String) (o : OrderDB)
    (hfind : st.orders.find? (fun x => x.id == oid) = some o)
    (howner : o.user_id = uid)
    (hstat : o.status = "pending" ∨ o.status = "confirmed") :
    cancel_order st oid uid now =
      ({ st with
          products :=
            applyUpdates
              ((st.order_items.filter (fun it => it.order_id == oid)).map
                (fun it => (it.product_id, fun p =>
                  { p with quantity := p.quantity + it.quantity, updated_at := now })))
              st.products,
          orders :=
            updateFirst (fun x => x.id == oid)
              (fun _ => { o with status := "cancelled", updated_at := now }) st.orders },
       Except.ok { o with status := "cancelled", updated_at := now }) := by
  have h1 : (o.user_id == uid) = true := by simp [howner]
  have h2 : (o.status == "pending" || o.status == "confirmed") = true := by
    rcases hstat with h | h <;> simp [h]
  simp only [cancel_order, hfind, h1, h2, Bool.not_true, Bool.false_eq_true, if_false,
    ite_false]
  rw [applyUpdates, List.foldl_map]

/-- Claim C4: cancellation is owner-only (`Forbidden` otherwise), allowed
only from `pending`/`confirmed` (`InvalidTransition` otherwise); on
success the order becomes `cancelled`, every line item restocks its
product when the row still exists (lookup result mapped through the
increment; a vanished row is silently skipped), and a second cancel fails
with `InvalidTransition`. -/
theorem cancel_order_spec (st : DBState) (oid uid now : String) (o : OrderDB)
    (hfind : st.orders.find? (fun x => x.id == oid) = some o)
    (hnodup : ((st.order_items.filter (fun it => it.order_id == oid)).map
      (fun it => it.product_id)).Nodup) :
    (¬(o.user_id = uid) → cancel_order st oid uid now = (st, Except.error HErr.forbidden)) ∧
    (o.user_id = uid → ¬(o.status = "pending" ∨ o.status = "confirmed") →
      cancel_order st oid uid now = (st, Except.error HErr.invalidTransition)) ∧
    (o.user_id = uid → (o.status = "pending" ∨ o.status = "confirmed") →
      (cancel_order st oid uid now).2 =
        Except.ok { o with status := "cancelled", updated_at := now } ∧
      (∀ it ∈ st.order_items, it.order_id = oid →
        (cancel_order st oid uid now).1.products.find? (fun p => p.id == it.product_id) =
          (st.products.find? (fun p => p.id == it.product_id)).map
            (fun p => { p with quantity := p.quantity + it.quantity, updated_at := now })) ∧
      (∀ now2, (cancel_order (cancel_order st oid uid now).1 oid uid now2).2 =
        Except.error HErr.invalidTransition)) := by
  refine ⟨?_, ?_, ?_⟩
  · intro hne
    simp [cancel_order, hfind, beq_eq_false_iff_ne.mpr hne]
  · intro howner hbad
    have h1 : (o.user_id == uid) = true := by simp [howner]
    have h2 : (o.status == "pending" || o.status == "confirmed") = false := by
      push_neg at hbad
      simp [beq_eq_false_iff_ne.mpr hbad.1, beq_eq_false_iff_ne.mpr hbad.2]
    simp [cancel_order, hfind, h1, h2]
  · intro howner hstat
    have hsucc := cancel_order_success st oid uid now o hfind howner hstat
    have hkey : ∀ u ∈ (st.order_items.filter (fun it => it.order_id == oid)).map
        (fun it => (it.product_id, fun p : Product =>
          { p with quantity := p.quantity + it.quantity, updated_at := now })),
        ∀ x : Product, (u.2 x).id = x.id := by
      intro u hu x
      rcases List.mem_map.mp hu with ⟨it, _, rfl⟩
      rfl
    have hndu : (((st.order_items.filter (fun it => it.order_id == oid)).map
        (fun it => (it.product_id, fun p : Product =>
          { p with quantity := p.quantity + it.quantity, updated_at := now }))).map
        Prod.fst).Nodup := by
      rw [List.map_map]
      exact hnodup
    refine ⟨by rw [hsucc], ?_, ?_⟩
    · intro it hit hoid
      have hmemf : it ∈ st.order_items.filter (fun x => x.order_id == oid) := by
        rw [List.mem_filter]
        exact ⟨hit, by simp [hoid]⟩
      have hu := List.mem_map_of_mem (fun it => (it.product_id, fun p : Product =>
        { p with quantity := p.quantity + it.quantity, updated_at := now })) hmemf
      have := applyUpdates_find?_mem hndu hkey hu st.products
      rw [hsucc]
      exact this
    · intro now2
      rw [hsucc]
      have hq : ((o.id : String) == oid) = true := by
        simpa using List.find?_some hfind
      have hfind2 : (updateFirst (fun x : OrderDB => x.id == oid)
          (fun _ => { o with status := "cancelled", updated_at := now })
          st.orders).find? (fun x => x.id == oid) =
          some { o with status := "cancelled", updated_at := now } := by
        rw [@find?_updateFirst_self OrderDB (fun x => x.id == oid)
          (fun _ => { o with status := "cancelled", updated_at := now })
          (fun x _ => hq) st.orders, hfind]
        rfl
      have h1 : (({ o with status := "cancelled", updated_at := now } : OrderDB).user_id
          == uid) = true := by simp [howner]
      simp [cancel_order, hfind2, h1]

/-- Witness for C4: the pending order `o1` of `u1` with line items
`[(p1, 2), (pB, 1)]` cancels successfully, and cancelling again fails. -/
theorem cancel_order_spec_witness :
    (cancel_order stX "o1" "u1" "t2").2 =
      Except.ok { oO with status := "cancelled", updated_at := "t2" } ∧
    (∀ now2, (cancel_order (cancel_order stX "o1" "u1" "t2").1 "o1" "u1" now2).2 =
      Except.error HErr.invalidTransition) :=
  have h := (cancel_order_spec stX "o1" "u1" "t2" oO (by rfl) (by decide)).2.2
    (by rfl) (Or.inl (by rfl))
  ⟨h.1, h.2.2⟩

/-- Claim C10 (implicit): a successful cancellation restocks the product
of every line item that still has a product row, even when that product
has `is_active = false` (the restock lookup, unlike cart and checkout
lookups, does not filter on `is_active`); only a vanished row is skipped. -/
theorem cancel_restocks_inactive_products (st : DBState) (oid uid now : String)
    (o : OrderDB)
    (hfind : st.orders.find? (fun x => x.id == oid) = some o)
    (howner : o.user_id = uid)
    (hstat : o.status = "pending" ∨ o.status = "confirmed")
    (hnodup : ((st.order_items.filter (fun it => it.order_id == oid)).map
      (fun it => it.product_id)).Nodup) :
    (cancel_order st oid uid now).2 =
      Except.ok { o with status := "cancelled", updated_at := now } ∧
    (∀ it ∈ st.order_items, it.order_id = oid →
      (∀ p : Product, st.products.find? (fun x => x.id == it.product_id) = some p →
        p.is_active = false →
        (cancel_order st oid uid now).1.products.find? (fun x => x.id == it.product_id) =
          some { p with quantity := p.quantity + it.quantity, updated_at := now }) ∧
      (st.products.find? (fun x => x.id == it.product_id) = none →
        (cancel_order st oid uid now).1.products.find? (fun x => x.id == it.product_id) =
          none)) := by
  have hsucc := cancel_order_success st oid uid now o hfind howner hstat
  have hkey : ∀ u ∈ (st.order_items.filter (fun it => it.order_id == oid)).map
      (fun it => (it.product_id, fun p : Product =>
        { p with quantity := p.quantity + it.quantity, updated_at := now })),
      ∀ x : Product, (u.2 x).id = x.id := by
    intro u hu x
    rcases List.mem_map.mp hu with ⟨it, _, rfl⟩
    rfl
  have hndu : (((st.order_items.filter (fun it => it.order_id == oid)).map
      (fun it => (it.product_id, fun p : Product =>
        { p with quantity := p.quantity + it.quantity, updated_at := now }))).map
      Prod.fst).Nodup := by
    rw [List.map_map]
    exact hnodup
  refine ⟨by rw [hsucc], ?_⟩
  intro it hit hoid
  have hmemf : it ∈ st.order_items.filter (fun x => x.order_id == oid) := by
    rw [List.mem_filter]
    exact ⟨hit, by simp [hoid]⟩
  have hu := List.mem_map_of_mem (fun it => (it.product_id, fun p : Product =>
    { p with quantity := p.quantity + it.quantity, updated_at := now })) hmemf
  have hchar := applyUpdates_find?_mem hndu hkey hu st.products
  constructor
  · intro p hp _
    rw [hsucc]
    rw [hchar, hp]
    rfl
  · intro hp
    rw [hsucc]
    rw [hchar, hp]
    rfl

/-- Witness for C10: cancelling `o1` restocks the inactive product `pB`
(stock 7 → 8). -/
theorem cancel_restocks_inactive_products_witness :
    (cancel_order stX "o1" "u1" "t2").1.products.find? (fun x => x.id == "pB") =
      some { pB with quantity := pB.quantity + itB.quantity, updated_at := "t2" } :=
  ((cancel_restocks_inactive_products stX "o1" "u1" "t2" oO (by rfl) (by rfl)
      (Or.inl (by rfl)) (by decide)).2 itB
    (List.mem_cons_of_mem itA (List.mem_cons_self itB []))
    (by rfl)).1 pB (by rfl) (by rfl)

/-- Cart additions never touch the product table. -/
theorem add_to_cart_products_unchanged (st : DBState) (uid pid : String) (qty : ℤ)
    (newId now : String) :
    (add_to_cart st uid pid qty newId now).1.products = st.products := by
  cases hf : findProductActive st.products pid with
  | none => simp [add_to_cart, hf]
  | some product =>
    by_cases h1 : qty > product.quantity
    · simp [add_to_cart, hf, h1]
    · cases he : st.cart_items.find? (fun c => c.user_id == uid && c.product_id == pid) with
      | none => simp [add_to_cart, hf, he, h1]
      | some e =>
        by_cases h2 : e.quantity + qty > product.quantity
        · simp [add_to_cart, hf, he, h1, h2]
        · simp [add_to_cart, hf, he, h1, h2]

/-- Cart updates never touch the product table. -/
theorem update_cart_item_products_unchanged (st : DBState) (uid item_id : String)
    (qty : ℤ) (now : String) :
    (update_cart_item st uid item_id qty now).1.products = st.products := by
  cases he : st.cart_items.find? (fun c => c.id == item_id && c.user_id == uid) with
  | none => simp [update_cart_item, he]
  | some ci =>
    cases hf : findProductActive st.products ci.product_id with
    | none => simp [update_cart_item, he, hf]
    | some product =>
      by_cases h1 : qty > product.quantity
      · simp [update_cart_item, he, hf, h1]
      · by_cases h2 : qty ≤ 0
        · simp [update_cart_item, he, hf, h1, h2]
        · simp [update_cart_item, he, hf, h1, h2]

/-- Cart removals never touch the product table. -/
theorem remove_from_cart_products_unchanged (st : DBState) (uid item_id : String) :
    (remove_from_cart st uid item_id).1.products = st.products := by
  cases he : st.cart_items.find? (fun c => c.id == item_id && c.user_id == uid) with
  | none => simp [remove_from_cart, he]
  | some ci => simp [remove_from_cart, he]

/-- Clearing the cart never touches the product table. -/
theorem clear_cart_products_unchanged (st : DBState) (uid : String) :
    (clear_cart st uid).1.products = st.products := rfl

/-- Status updates never touch the product table. -/
theorem update_order_status_products_unchanged (st : DBState) (oid : String)
    (status? : Option String) (now : String) :
    (update_order_status st oid status? now).1.products = st.products := by
  cases hf : st.orders.find? (fun o => o.id == oid) with
  | none => simp [update_order_status, hf]
  | some o =>
    simp only [update_order_status, hf]
    split
    · split
      · rfl
      · rfl
    · rfl

/-- Either a cancellation leaves the product table unchanged (any failure)
or it applies the keyed restock increments of the order's line items. -/
theorem cancel_order_products_cases (st : DBState) (oid uid now : String) :
    (cancel_order st oid uid now).1.products = st.products ∨
    (cancel_order st oid uid now).1.products =
      applyUpdates
        ((st.order_items.filter (fun it => it.order_id == oid)).map
          (fun it => (it.product_id, fun p : Product =>
            { p with quantity := p.quantity + it.quantity, updated_at := now })))
        st.products := by
  cases hfind : st.orders.find? (fun x => x.id == oid) with
  | none => left; simp [cancel_order, hfind]
  | some o =>
    cases howner : (o.user_id == uid) with
    | false => left; simp [cancel_order, hfind, howner]
    | true =>
      cases hstat : (o.status == "pending" || o.status == "confirmed") with
      | false => left; simp [cancel_order, hfind, howner, hstat]
      | true =>
        right
        have hstat2 : o.status = "pending" ∨ o.status = "confirmed" := by
          rcases Bool.or_eq_true_iff.mp hstat with h | h
          · exact Or.inl (by simpa using h)
          · exact Or.inr (by simpa using h)
        have hsucc := cancel_order_success st oid uid now o hfind
          (by simpa using howner) hstat2
        rw [hsucc]

/-- Either a checkout leaves the product table unchanged (any failure) or
it applies the keyed stock decrements of the validated snapshot list. -/
theorem create_order_products_cases (st : DBState) (uid sa sm cn ce pm : String)
    (cp nt : Option String) (oid onum now : String) :
    (create_order_from_cart st uid sa sm cn ce pm cp nt oid onum now).1.products =
      st.products ∨
    ∃ items : List ItemData, ∃ subtotal : ℚ,
      validateCartItems st.products (st.cart_items.filter (fun ci => ci.user_id == uid)) =
        Except.ok (items, subtotal) ∧
      (create_order_from_cart st uid sa sm cn ce pm cp nt oid onum now).1.products =
        applyUpdates
          (items.map (fun d => (d.product_id, fun p : Product =>
            { p with quantity := p.quantity - d.quantity, updated_at := now })))
          st.products := by
  by_cases hemp : (st.cart_items.filter (fun ci => ci.user_id == uid)).isEmpty
  · left; simp [create_order_from_cart, hemp]
  · cases hval : validateCartItems st.products
        (st.cart_items.filter (fun ci => ci.user_id == uid)) with
    | error e2 => left; simp [create_order_from_cart, hemp, hval]
    | ok pr =>
      obtain ⟨items, subtotal⟩ := pr
      right
      refine ⟨items, subtotal, rfl, ?_⟩
      simp only [create_order_from_cart, hemp, Bool.false_eq_true, if_neg, ite_false, hval]
      rw [applyUpdates, List.foldl_map]

/-- Claim C2: starting from a state with non-negative stock (and
well-formed line items and primary-key-unique products), every core
operation — cart add/update/remove/clear, order status update, order
cancellation, and checkout under the at-most-one-cart-line-per-product
invariant — leaves every product's quantity non-negative; checkout
decrements only quantities its validation pass has checked. -/
theorem core_ops_preserve_stock_nonneg (st : DBState)
    (h0 : ∀ p ∈ st.products, 0 ≤ p.quantity)
    (hitems : ∀ it ∈ st.order_items, 0 ≤ it.quantity)
    (hpids : (st.products.map Product.id).Nodup) :
    (∀ uid pid qty newId now,
      ∀ p ∈ (add_to_cart st uid pid qty newId now).1.products, 0 ≤ p.quantity) ∧
    (∀ uid iid qty now,
      ∀ p ∈ (update_cart_item st uid iid qty now).1.products, 0 ≤ p.quantity) ∧
    (∀ uid iid, ∀ p ∈ (remove_from_cart st uid iid).1.products, 0 ≤ p.quantity) ∧
    (∀ uid, ∀ p ∈ (clear_cart st uid).1.products, 0 ≤ p.quantity) ∧
    (∀ oid s now,
      ∀ p ∈ (update_order_status st oid s now).1.products, 0 ≤ p.quantity) ∧
    (∀ oid uid now, ∀ p ∈ (cancel_order st oid uid now).1.products, 0 ≤ p.quantity) ∧
    (∀ uid sa sm cn ce pm cp nt oid onum now,
      (((st.cart_items.filter (fun c => c.user_id == uid)).map
        (fun c => c.product_id)).Nodup) →
      ∀ p ∈ (create_order_from_cart st uid sa sm cn ce pm cp nt oid onum now).1.products,
        0 ≤ p.quantity) := by
  refine ⟨?_, ?_, ?_, ?_, ?_, ?_, ?_⟩
  · intro uid pid qty newId now p hp
    rw [add_to_cart_products_unchanged] at hp
    exact h0 p hp
  · intro uid iid qty now p hp
    rw [update_cart_item_products_unchanged] at hp
    exact h0 p hp
  · intro uid iid p hp
    rw [remove_from_cart_products_unchanged] at hp
    exact h0 p hp
  · intro uid p hp
    rw [clear_cart_products_unchanged] at hp
    exact h0 p hp
  · intro oid s now p hp
    rw [update_order_status_products_unchanged] at hp
    exact h0 p hp
  · intro oid uid now p hp
    rcases cancel_order_products_cases st oid uid now with hcase | hcase
    · rw [hcase] at hp
      exact h0 p hp
    · rw [hcase] at hp
      refine applyUpdates_nonneg_mono ?_ h0 p hp
      intro u hu x hx
      rcases List.mem_map.mp hu with ⟨it, hitmem, rfl⟩
      have hit0 : 0 ≤ it.quantity := hitems it (List.mem_of_mem_filter hitmem)
      show 0 ≤ x.quantity + it.quantity
      omega
  · intro uid sa sm cn ce pm cp nt oid onum now hnodupcart p hp
    rcases create_order_products_cases st uid sa sm cn ce pm cp nt oid onum now with
      hcase | ⟨items, subtotal, hval, hcase⟩
    · rw [hcase] at hp
      exact h0 p hp
    · rw [hcase] at hp
      obtain ⟨hmap, hsum, hall⟩ := validateCartItems_ok hval
      refine applyUpdates_nonneg_safe ?_ ?_ h0 ?_ p hp
      · rw [List.map_map]
        show (items.map (fun d => d.product_id)).Nodup
        rw [hmap]
        exact hnodupcart
      · intro u hu x
        rcases List.mem_map.mp hu with ⟨d, _, rfl⟩
        rfl
      · intro u hu p2 hp2
        rcases List.mem_map.mp hu with ⟨d, hd, rfl⟩
        rcases hall d hd with ⟨pa, hpa, hpaid, hqle, _⟩
        have hfd := find?_eq_of_findActive hpids hpa
        have hp2' : st.products.find? (fun x => x.id == d.product_id) = some p2 := hp2
        have hpeq : pa = p2 := by
          have := hfd.symm.trans hp2'
          exact Option.some.inj this
        subst hpeq
        show 0 ≤ pa.quantity - d.quantity
        omega

/-- Witness for C2: on the concrete state, checkout of the 2-unit line
against stock 5 leaves the decremented product at quantity 3 ≥ 0. -/
theorem core_ops_preserve_stock_nonneg_witness :
    (0 : ℤ) ≤ ({ pW with quantity := 3, updated_at := "t1" } : Product).quantity :=
  (core_ops_preserve_stock_nonneg stW (by decide) (by decide) (by decide)).2.2.2.2.2.2
    "u1" "addr" "standard" "Al" "a@b.c" "card" none none "o1" "ORD-1" "t1" (by decide)
    { pW with quantity := 3, updated_at := "t1" }
    (by
      have heval : (create_order_from_cart stW "u1" "addr" "standard" "Al" "a@b.c" "card"
          none none "o1" "ORD-1" "t1").1.products =
          [{ pW with quantity := 3, updated_at := "t1" }] := by
        norm_num +decide [create_order_from_cart, stW, cW, pW, validateCartItems,
          findProductActive, calculate_shipping_cost, calculate_tax, round2, roundHalfEven,
          updateFirst]
      rw [heval]
      exact List.mem_singleton.mpr rfl)

end Ecommerce
